import Mathlib

/-!
Verification of the MPU9250 9-axis motion sensor driver (Omnisense/MPU9250).

The repository ships the class header MPU9250.h: the register maps, bit
constants, mode enumerations and the public interface with its documented
return-status contracts.  The method bodies are not part of the available
sources, so the operations below are modelled from the specification
(sections 4.2-4.5), faithful to its words, over the constants and contracts
taken verbatim from the header.

The bus is modelled as an oracle: a read function from (device address,
register, byte count) to an optional byte list (none = transport failure)
and a write function returning success.  Every driver operation returns,
besides its result, the list of bus transactions it issued, so that claims
about "no bus transaction" or "exactly one 6-byte read" are provable.
-/

namespace MPU9250

/-! ## Register map and bit constants, from MPU9250.h -/

/-- Device address 0x68 shifted left by one, from MPU9250.h line 36. -/
def MPU9250_ADDRESS : Nat := 0xD0

/-- Magnetometer device address 0x0C shifted left by one, MPU9250.h line 183. -/
def AK8963_ADDRESS : Nat := 0x18

def SMPLRT_DIV : Nat := 0x19

def CONFIG : Nat := 0x1A

def GYRO_CONFIG : Nat := 0x1B

def ACCEL_CONFIG : Nat := 0x1C

def ACCEL_CONFIG2 : Nat := 0x1D

def LP_ACCEL_ODR : Nat := 0x1E

def INT_PIN_CFG : Nat := 0x37

def ACCEL_XOUT_H : Nat := 0x3B

def GYRO_XOUT_H : Nat := 0x43

def PWR_MGMT_1 : Nat := 0x6B

def PWR_MGMT_2 : Nat := 0x6C

def WHO_AM_I_MPU9250 : Nat := 0x75

/-- Magnetometer status register 1, data ready on bit 0 (MPU9250.h line 186). -/
def AK8963_ST1 : Nat := 0x02

def AK8963_XOUT_L : Nat := 0x03

/-- Magnetometer status register 2, data overflow on bit 3 (MPU9250.h line 193). -/
def AK8963_ST2 : Nat := 0x09

def AK8963_CNTL : Nat := 0x0A

def MPU_H_RESET : Nat := 0x80

def MPU_CYCLE : Nat := 0x20

def MPU_TEMP_DIS : Nat := 0x08

def MPU_GYRO_DIS : Nat := 0x07

def MPU_BYPASS_EN : Nat := 0x02

/-- Magnetometer power-down submode, MMODE enum of MPU9250.h. -/
def MFS_PWRNDN : Nat := 0x00

/-- Magnetometer single-shot submode, MMODE enum of MPU9250.h. -/
def MFS_SINGLE : Nat := 0x01

/-- Magnetometer continuous submode 1 (8 Hz class), MMODE enum of MPU9250.h. -/
def MFS_CONT1 : Nat := 0x02

/-- Magnetometer continuous submode 2 (100 Hz class), MMODE enum of MPU9250.h. -/
def MFS_CONT2 : Nat := 0x06

/-- Expected identity byte, WHO_AM_I_VAL enum of MPU9250.h line 311. -/
def I_AM_MPU9250 : Nat := 0x71

/-- Clock source auto selection, CLKSOURCE enum of MPU9250.h. -/
def CLK_AUTO : Nat := 0x01

def DLPF_41 : Nat := 0x03

def DLPF_184 : Nat := 0x01

def ACCEL_BW_21 : Nat := 0x04

def ACCEL_BW_45 : Nat := 0x03

def ACCEL_BW_218 : Nat := 0x01

/-- Low power accelerometer output data rate 7.81 Hz, ACCEL_LPDRATE enum. -/
def ACCEL_DR_00781 : Nat := 0x05

/-- Low power accelerometer output data rate 15.63 Hz, ACCEL_LPDRATE enum. -/
def ACCEL_DR_01563 : Nat := 0x06

/-- The four operating mode classes, MEMS_MODE enum of MPU9250.h lines 318-323. -/
inductive MEMS_MODE
  | VLP_ACC
  | LP_ACCMAG
  | HP_ALL
  | HPP_ALL
deriving DecidableEq, Repr

/-! ## Bus and driver model -/

/-- One bus transaction: an addressed register read of a byte count, or an
addressed register write of a byte list. -/
inductive Txn
  | read (addr reg count : Nat)
  | write (addr reg : Nat) (data : List Nat)
deriving DecidableEq, Repr

/-- The bus transaction primitive of spec section 4.1: an oracle giving the
outcome of each addressed read (none = transport failure) and the success of
each addressed write. -/
structure Bus where
  readFn : Nat → Nat → Nat → Option (List Nat)
  writeFn : Nat → Nat → List Nat → Bool

/-- The driver state that the mode configurator records and the data reader
consults: the private fields _opmode and _magfs of MPU9250.h lines 379-380. -/
structure Driver where
  opmode : MEMS_MODE
  magfs : Nat
deriving DecidableEq, Repr

/-- Result of a data-read operation: the returned status byte, the decoded
triple when one was produced, and the bus transactions issued. -/
structure ReadResult where
  status : Nat
  values : Option (Int × Int × Int)
  log : List Txn
deriving DecidableEq, Repr

/-! ## Decoding -/

/-- Reinterpret a 16-bit unsigned value as a signed int16, the cast
(int16)x of the C++ code. -/
def toInt16 (n : Nat) : Int :=
  if n % 65536 < 32768 then ((n % 65536 : Nat) : Int)
  else ((n % 65536 : Nat) : Int) - 65536

/-- Big-endian pair decode (int16)((hi shl 8) or lo). -/
def decodeBE (hi lo : Nat) : Int := toInt16 ((hi % 256) * 256 + lo % 256)

/-- Decode six bytes read in register order as three big-endian pairs: the
byte at the lower register address is the high byte (accelerometer and
gyroscope layout, registers ACCEL_XOUT_H.. and GYRO_XOUT_H..). -/
def decode6BE (bs : List Nat) : Int × Int × Int :=
  (decodeBE (bs.getD 0 0) (bs.getD 1 0),
   decodeBE (bs.getD 2 0) (bs.getD 3 0),
   decodeBE (bs.getD 4 0) (bs.getD 5 0))

/-- Decode six bytes read in register order as three little-endian pairs:
the byte at the lower register address is the low byte (magnetometer layout,
registers AK8963_XOUT_L..AK8963_ZOUT_H). -/
def decode6LE (bs : List Nat) : Int × Int × Int :=
  (decodeBE (bs.getD 1 0) (bs.getD 0 0),
   decodeBE (bs.getD 3 0) (bs.getD 2 0),
   decodeBE (bs.getD 5 0) (bs.getD 4 0))

/-- First byte of a read buffer, 0 when the buffer is empty. -/
def byte0 : List Nat → Nat
  | [] => 0
  | b :: _ => b

/-! ## Data reader -/

/-- Whether the operating mode leaves the gyroscope powered down
(MEMS_MODE comments of MPU9250.h: modes 1 and 2 are accelerometer-only and
accelerometer plus magnetometer). -/
def gyroDisabled (m : MEMS_MODE) : Bool :=
  match m with
  | .VLP_ACC => true
  | .LP_ACCMAG => true
  | .HP_ALL => false
  | .HPP_ALL => false

/-- Modelled from the spec: readAccelData (section 4.5), whose body is not in
the available sources.  Unconditionally reads the six accelerometer output
bytes starting at ACCEL_XOUT_H and decodes three big-endian signed values;
no status is returned, so a transport failure yields no decoded triple. -/
def readAccelData (bus : Bus) : Option (Int × Int × Int) × List Txn :=
  match bus.readFn MPU9250_ADDRESS ACCEL_XOUT_H 6 with
  | none => (none, [Txn.read MPU9250_ADDRESS ACCEL_XOUT_H 6])
  | some bs => (some (decode6BE bs), [Txn.read MPU9250_ADDRESS ACCEL_XOUT_H 6])

/-- Modelled from the spec: readGyroData (section 4.5), whose body is not in
the available sources.  Consults the configured mode: when the mode disables
the gyroscope it returns status 1 without any bus transaction; otherwise it
issues one 6-byte read at GYRO_XOUT_H and returns 0 with the big-endian
decode.  The status space follows the header contract of MPU9250.h line 368,
0 = good, 1 = disabled or error, so a transport failure also returns 1. -/
def readGyroData (bus : Bus) (d : Driver) : ReadResult :=
  if gyroDisabled d.opmode then ⟨1, none, []⟩
  else
    match bus.readFn MPU9250_ADDRESS GYRO_XOUT_H 6 with
    | none => ⟨1, none, [Txn.read MPU9250_ADDRESS GYRO_XOUT_H 6]⟩
    | some bs => ⟨0, some (decode6BE bs), [Txn.read MPU9250_ADDRESS GYRO_XOUT_H 6]⟩

/-- Modelled from the spec: readMagData (section 4.5), whose body is not in
the available sources.  Always polls the magnetometer status register ST1
first, with no mode gating; a clear ready bit (bit 0), or a transport
failure of that poll, returns status 1 (no data) with no further
transaction.  Otherwise it reads the six data bytes at AK8963_XOUT_L,
decodes them little-endian, then reads ST2; a set overflow bit (bit 3)
returns status 2 and the data is not returned.  Under the single-shot mode
LP_ACCMAG a successful read is followed by one write re-arming AK8963_CNTL
with the recorded resolution plus the single-shot submode; status 0 is
returned only when that re-arm write also succeeds (spec: good only when
ready, uncorrupted and successfully re-armed), a failed re-arm or a
transport failure of the data or ST2 read returns status 2.  The status
space follows the header contract of MPU9250.h line 362:
0 = good, 1 = no data, 2 = measurement error. -/
def readMagData (bus : Bus) (d : Driver) : ReadResult :=
  match bus.readFn AK8963_ADDRESS AK8963_ST1 1 with
  | none => ⟨1, none, [Txn.read AK8963_ADDRESS AK8963_ST1 1]⟩
  | some st1 =>
    if byte0 st1 % 2 = 0 then ⟨1, none, [Txn.read AK8963_ADDRESS AK8963_ST1 1]⟩
    else
      match bus.readFn AK8963_ADDRESS AK8963_XOUT_L 6 with
      | none => ⟨2, none, [Txn.read AK8963_ADDRESS AK8963_ST1 1,
                           Txn.read AK8963_ADDRESS AK8963_XOUT_L 6]⟩
      | some bs =>
        match bus.readFn AK8963_ADDRESS AK8963_ST2 1 with
        | none => ⟨2, none, [Txn.read AK8963_ADDRESS AK8963_ST1 1,
                             Txn.read AK8963_ADDRESS AK8963_XOUT_L 6,
                             Txn.read AK8963_ADDRESS AK8963_ST2 1]⟩
        | some st2 =>
          if byte0 st2 / 8 % 2 = 1 then
            ⟨2, none, [Txn.read AK8963_ADDRESS AK8963_ST1 1,
                       Txn.read AK8963_ADDRESS AK8963_XOUT_L 6,
                       Txn.read AK8963_ADDRESS AK8963_ST2 1]⟩
          else if d.opmode = .LP_ACCMAG then
            ⟨if bus.writeFn AK8963_ADDRESS AK8963_CNTL [d.magfs ||| MFS_SINGLE] then 0 else 2,
             some (decode6LE bs),
             [Txn.read AK8963_ADDRESS AK8963_ST1 1,
              Txn.read AK8963_ADDRESS AK8963_XOUT_L 6,
              Txn.read AK8963_ADDRESS AK8963_ST2 1,
              Txn.write AK8963_ADDRESS AK8963_CNTL [d.magfs ||| MFS_SINGLE]]⟩
          else
            ⟨0, some (decode6LE bs),
             [Txn.read AK8963_ADDRESS AK8963_ST1 1,
              Txn.read AK8963_ADDRESS AK8963_XOUT_L 6,
              Txn.read AK8963_ADDRESS AK8963_ST2 1]⟩

/-! ## Identity check and initializer -/

/-- Modelled from the spec: testWhoAmI (section 4.3), whose body is not in
the available sources.  Reads one byte from WHO_AM_I_MPU9250 and compares it
to I_AM_MPU9250; a transport failure or any other byte yields false; the
driver state is returned unchanged (no side effects). -/
def testWhoAmI (bus : Bus) (d : Driver) : Bool × Driver × List Txn :=
  match bus.readFn MPU9250_ADDRESS WHO_AM_I_MPU9250 1 with
  | none => (false, d, [Txn.read MPU9250_ADDRESS WHO_AM_I_MPU9250 1])
  | some bs => (decide (bs.getD 0 0 = I_AM_MPU9250), d,
                [Txn.read MPU9250_ADDRESS WHO_AM_I_MPU9250 1])

/-- Modelled from the spec: init (section 4.2), whose body is not in the
available sources.  In order: write the reset bit to PWR_MGMT_1, write the
auto clock selection with the sleep bit clear to PWR_MGMT_1, set the
bypass-enable bit in INT_PIN_CFG, then validate the device identity.
Returns 0 only when every step succeeds; the first failed write
short-circuits the rest of the sequence, and an identity mismatch makes the
whole initialization fail with status 1. -/
def init (bus : Bus) (d : Driver) : Nat × List Txn :=
  if bus.writeFn MPU9250_ADDRESS PWR_MGMT_1 [MPU_H_RESET] then
    if bus.writeFn MPU9250_ADDRESS PWR_MGMT_1 [CLK_AUTO] then
      if bus.writeFn MPU9250_ADDRESS INT_PIN_CFG [MPU_BYPASS_EN] then
        ((if (testWhoAmI bus d).1 then 0 else 1),
         [Txn.write MPU9250_ADDRESS PWR_MGMT_1 [MPU_H_RESET],
          Txn.write MPU9250_ADDRESS PWR_MGMT_1 [CLK_AUTO],
          Txn.write MPU9250_ADDRESS INT_PIN_CFG [MPU_BYPASS_EN]] ++
         (testWhoAmI bus d).2.2)
      else (1, [Txn.write MPU9250_ADDRESS PWR_MGMT_1 [MPU_H_RESET],
                Txn.write MPU9250_ADDRESS PWR_MGMT_1 [CLK_AUTO],
                Txn.write MPU9250_ADDRESS INT_PIN_CFG [MPU_BYPASS_EN]])
    else (1, [Txn.write MPU9250_ADDRESS PWR_MGMT_1 [MPU_H_RESET],
              Txn.write MPU9250_ADDRESS PWR_MGMT_1 [CLK_AUTO]])
  else (1, [Txn.write MPU9250_ADDRESS PWR_MGMT_1 [MPU_H_RESET]])

/-! ## Mode configurator -/

/-- Magnetometer sampling submode implied by each operating mode (spec
section 4.4 table): power-down for VLP_ACC, single-shot for LP_ACCMAG,
continuous for HP_ALL and HPP_ALL. -/
def magSubmode (m : MEMS_MODE) : Nat :=
  match m with
  | .VLP_ACC => MFS_PWRNDN
  | .LP_ACCMAG => MFS_SINGLE
  | .HP_ALL => MFS_CONT1
  | .HPP_ALL => MFS_CONT2

/-- Modelled from the spec: the per-mode register write recipe of
setParameters (section 4.4 table), whose body is not in the available
sources.  Each entry is (device address, register, byte).  The spec leaves
the exact bit patterns open; the values here are chosen from the header
constants consistent with the documented rate and power targets: gyroscope
standby bits in PWR_MGMT_2 for the two low power modes, cycle mode with the
7.81 Hz and 15.63 Hz low power accelerometer rates, 50 Hz and 250 Hz sample
rate dividers for the two high power modes, and the magnetometer control
register set to the selected resolution bits plus the sampling submode. -/
def modeRecipe (m : MEMS_MODE) (accelfs magfs gyrofs : Nat) : List (Nat × Nat × Nat) :=
  match m with
  | .VLP_ACC =>
      [(MPU9250_ADDRESS, PWR_MGMT_2, MPU_GYRO_DIS),
       (MPU9250_ADDRESS, ACCEL_CONFIG, accelfs),
       (MPU9250_ADDRESS, ACCEL_CONFIG2, ACCEL_BW_21),
       (MPU9250_ADDRESS, LP_ACCEL_ODR, ACCEL_DR_00781),
       (MPU9250_ADDRESS, PWR_MGMT_1, MPU_CYCLE ||| MPU_TEMP_DIS),
       (AK8963_ADDRESS, AK8963_CNTL, magfs ||| MFS_PWRNDN)]
  | .LP_ACCMAG =>
      [(MPU9250_ADDRESS, PWR_MGMT_2, MPU_GYRO_DIS),
       (MPU9250_ADDRESS, ACCEL_CONFIG, accelfs),
       (MPU9250_ADDRESS, ACCEL_CONFIG2, ACCEL_BW_21),
       (MPU9250_ADDRESS, LP_ACCEL_ODR, ACCEL_DR_01563),
       (MPU9250_ADDRESS, PWR_MGMT_1, MPU_CYCLE),
       (AK8963_ADDRESS, AK8963_CNTL, magfs ||| MFS_SINGLE)]
  | .HP_ALL =>
      [(MPU9250_ADDRESS, PWR_MGMT_1, CLK_AUTO),
       (MPU9250_ADDRESS, PWR_MGMT_2, 0x00),
       (MPU9250_ADDRESS, SMPLRT_DIV, 19),
       (MPU9250_ADDRESS, CONFIG, DLPF_41),
       (MPU9250_ADDRESS, GYRO_CONFIG, gyrofs),
       (MPU9250_ADDRESS, ACCEL_CONFIG, accelfs),
       (MPU9250_ADDRESS, ACCEL_CONFIG2, ACCEL_BW_45),
       (AK8963_ADDRESS, AK8963_CNTL, magfs ||| MFS_CONT1)]
  | .HPP_ALL =>
      [(MPU9250_ADDRESS, PWR_MGMT_1, CLK_AUTO),
       (MPU9250_ADDRESS, PWR_MGMT_2, 0x00),
       (MPU9250_ADDRESS, SMPLRT_DIV, 3),
       (MPU9250_ADDRESS, CONFIG, DLPF_184),
       (MPU9250_ADDRESS, GYRO_CONFIG, gyrofs),
       (MPU9250_ADDRESS, ACCEL_CONFIG, accelfs),
       (MPU9250_ADDRESS, ACCEL_CONFIG2, ACCEL_BW_218),
       (AK8963_ADDRESS, AK8963_CNTL, magfs ||| MFS_CONT2)]

/-- Issue a list of single-byte register writes in order, short-circuiting
on the first transport failure: returns status 0 and the full write log on
success, status 1 and the log up to and including the failed attempt
otherwise. -/
def runWrites (bus : Bus) : List (Nat × Nat × Nat) → Nat × List Txn
  | [] => (0, [])
  | w :: rest =>
    if bus.writeFn w.1 w.2.1 [w.2.2] then
      ((runWrites bus rest).1, Txn.write w.1 w.2.1 [w.2.2] :: (runWrites bus rest).2)
    else (1, [Txn.write w.1 w.2.1 [w.2.2]])

/-- Modelled from the spec: setParameters (section 4.4), whose body is not
in the available sources.  Runs the per-mode write recipe; only when every
write succeeded does it record the new mode and magnetometer resolution in
the driver state and return 0; on any transport failure it returns a
non-zero status and leaves the previous state untouched. -/
def setParameters (bus : Bus) (d : Driver) (m : MEMS_MODE)
    (accelfs magfs gyrofs : Nat) : Nat × Driver × List Txn :=
  if (runWrites bus (modeRecipe m accelfs magfs gyrofs)).1 = 0 then
    (0, ⟨m, magfs⟩, (runWrites bus (modeRecipe m accelfs magfs gyrofs)).2)
  else ((runWrites bus (modeRecipe m accelfs magfs gyrofs)).1, d,
        (runWrites bus (modeRecipe m accelfs magfs gyrofs)).2)

/-! ## Concrete buses and drivers used by witnesses -/

/-- Bus on which every read yields the given byte repeated and every write
succeeds. -/
def busConst (b : Nat) : Bus :=
  ⟨fun _ _ c => some (List.replicate c b), fun _ _ _ => true⟩

/-- Bus on which every read fails at the transport level and every write
succeeds. -/
def busReadFail : Bus := ⟨fun _ _ _ => none, fun _ _ _ => true⟩

/-- Bus on which every write fails at the transport level and every read
yields zero bytes. -/
def busWriteFail : Bus := ⟨fun _ _ c => some (List.replicate c 0), fun _ _ _ => false⟩

/-- Bus serving distinct concrete bytes for the accelerometer, gyroscope and
magnetometer data registers, with the magnetometer ready and not
overflowed. -/
def busSample : Bus :=
  ⟨fun _ reg c =>
      if reg = ACCEL_XOUT_H then some [0x12, 0x34, 0x56, 0x78, 0x9A, 0xBC]
      else if reg = GYRO_XOUT_H then some [0x01, 0x02, 0x03, 0x04, 0xFF, 0xFE]
      else if reg = AK8963_XOUT_L then some [0x21, 0x43, 0x65, 0x87, 0xA9, 0xCB]
      else if reg = AK8963_ST1 then some [0x01]
      else if reg = AK8963_ST2 then some [0x00]
      else some (List.replicate c I_AM_MPU9250),
   fun _ _ _ => true⟩

/-- Driver configured in high power mode with 16-bit magnetometer
resolution. -/
def drvHP : Driver := ⟨.HP_ALL, 0x10⟩

/-- Driver configured in the low power accelerometer plus magnetometer
mode. -/
def drvLP : Driver := ⟨.LP_ACCMAG, 0x10⟩

/-- Driver configured in the very low power accelerometer-only mode. -/
def drvVLP : Driver := ⟨.VLP_ACC, 0x00⟩

/-- Whether a transaction is a write to the magnetometer control register
AK8963_CNTL. -/
def isMagCntlWrite (t : Txn) : Bool :=
  match t with
  | Txn.write a r _ => a == AK8963_ADDRESS && r == AK8963_CNTL
  | _ => false

/-- The bytes a recipe writes to one (device address, register) pair, in
order. -/
def writesTo (addr reg : Nat) (rs : List (Nat × Nat × Nat)) : List Nat :=
  (rs.filter fun w => w.1 == addr && w.2.1 == reg).map fun w => w.2.2

/-! ## Helper lemmas -/

/-- Running a write recipe reports status 0 exactly when every write in it
succeeds. -/
theorem runWrites_ok_iff (bus : Bus) (rs : List (Nat × Nat × Nat)) :
    (runWrites bus rs).1 = 0 ↔ ∀ w ∈ rs, bus.writeFn w.1 w.2.1 [w.2.2] = true := by
  induction rs with
  | nil => simp [runWrites]
  | cons w rest ih =>
    by_cases hw : bus.writeFn w.1 w.2.1 [w.2.2] = true
    · simp [runWrites, hw, ih]
    · simp [runWrites, hw]

/-- When every write in a recipe succeeds, running it logs exactly the
recipe, in order, as write transactions. -/
theorem runWrites_log (bus : Bus) (rs : List (Nat × Nat × Nat))
    (h : ∀ w ∈ rs, bus.writeFn w.1 w.2.1 [w.2.2] = true) :
    runWrites bus rs = (0, rs.map fun w => Txn.write w.1 w.2.1 [w.2.2]) := by
  induction rs with
  | nil => simp [runWrites]
  | cons w rest ih =>
    have hw := h w (by simp)
    have hrest := ih fun x hx => h x (by simp [hx])
    simp [runWrites, hw, hrest]

/-- A successful setParameters records the requested mode and magnetometer
resolution. -/
theorem setParameters_ok_state (bus : Bus) (d : Driver) (m : MEMS_MODE)
    (a mg g : Nat) (h : (setParameters bus d m a mg g).1 = 0) :
    (setParameters bus d m a mg g).2.1 = ⟨m, mg⟩ := by
  by_cases hc : (runWrites bus (modeRecipe m a mg g)).1 = 0
  · simp [setParameters, hc]
  · simp [setParameters, hc] at h

/-! ## Claim theorems -/

/-- Claim C6: testWhoAmI returns true if and only if the read of the
identity register WHO_AM_I_MPU9250 succeeds and yields exactly the constant
0x71 (I_AM_MPU9250); any other byte value, and any transport failure of the
read, yields false, and the operation leaves the driver state unchanged. -/
theorem claimC6_testWhoAmI_iff (bus : Bus) (d : Driver) :
    ((testWhoAmI bus d).1 = true ↔
      ∃ bs, bus.readFn MPU9250_ADDRESS WHO_AM_I_MPU9250 1 = some bs ∧
        bs.getD 0 0 = I_AM_MPU9250) ∧
    (testWhoAmI bus d).2.1 = d := by
  unfold testWhoAmI
  cases h : bus.readFn MPU9250_ADDRESS WHO_AM_I_MPU9250 1 with
  | none => simp
  | some bs => simp

/-- Claim C5: if setParameters returns a non-zero status its write sequence
failed and the previously effective configuration is left unchanged; the
stored mode and magnetometer resolution are updated exactly when the whole
recipe of writes succeeded, never partially; a transport failure on any
write of the recipe forces a non-zero status with the old state intact. -/
theorem claimC5_setParameters_atomic (bus : Bus) (d : Driver) (m : MEMS_MODE)
    (a mg g : Nat) :
    ((setParameters bus d m a mg g).1 ≠ 0 → (setParameters bus d m a mg g).2.1 = d) ∧
    ((setParameters bus d m a mg g).1 = 0 →
       (setParameters bus d m a mg g).2.1 = ⟨m, mg⟩ ∧
       ∀ w ∈ modeRecipe m a mg g, bus.writeFn w.1 w.2.1 [w.2.2] = true) ∧
    ((∃ w ∈ modeRecipe m a mg g, bus.writeFn w.1 w.2.1 [w.2.2] = false) →
       (setParameters bus d m a mg g).1 ≠ 0 ∧
       (setParameters bus d m a mg g).2.1 = d) := by
  by_cases hc : (runWrites bus (modeRecipe m a mg g)).1 = 0
  · refine ⟨by simp [setParameters, hc], ?_, ?_⟩
    · intro _
      exact ⟨by simp [setParameters, hc], (runWrites_ok_iff bus _).mp hc⟩
    · rintro ⟨w, hw, hfail⟩
      have := (runWrites_ok_iff bus (modeRecipe m a mg g)).mp hc w hw
      rw [this] at hfail
      exact absurd hfail (by simp)
  · refine ⟨fun _ => by simp [setParameters, hc], ?_, ?_⟩
    · intro h
      simp [setParameters, hc] at h
    · intro _
      exact ⟨by simp [setParameters, hc], by simp [setParameters, hc]⟩

/-- Witness for claim C5: a bus failing every write leaves the driver state
unchanged and reports a non-zero status. -/
theorem claimC5_witness :
    (setParameters busWriteFail drvHP MEMS_MODE.LP_ACCMAG 0 16 0).1 ≠ 0 ∧
    (setParameters busWriteFail drvHP MEMS_MODE.LP_ACCMAG 0 16 0).2.1 = drvHP :=
  (claimC5_setParameters_atomic busWriteFail drvHP MEMS_MODE.LP_ACCMAG 0 16 0).2.2
    ⟨(MPU9250_ADDRESS, PWR_MGMT_2, MPU_GYRO_DIS), by decide, by decide⟩

/-- Claim C1: readGyroData consults the configured operating mode: after a
setParameters call that succeeded with mode VLP_ACC or LP_ACCMAG it returns
the disabled status (1) and issues zero bus transactions; after a
setParameters call that succeeded with mode HP_ALL or HPP_ALL it issues
exactly one 6-byte read at GYRO_XOUT_H and returns the good status (0) with
the big-endian decoded values. -/
theorem claimC1_readGyro_mode_gating (bus bus2 : Bus) (d : Driver)
    (m : MEMS_MODE) (a mg g : Nat)
    (h : (setParameters bus d m a mg g).1 = 0) :
    ((m = MEMS_MODE.VLP_ACC ∨ m = MEMS_MODE.LP_ACCMAG) →
        readGyroData bus2 (setParameters bus d m a mg g).2.1 = ⟨1, none, []⟩) ∧
    ((m = MEMS_MODE.HP_ALL ∨ m = MEMS_MODE.HPP_ALL) →
        ∀ bs, bus2.readFn MPU9250_ADDRESS GYRO_XOUT_H 6 = some bs →
          readGyroData bus2 (setParameters bus d m a mg g).2.1 =
            ⟨0, some (decode6BE bs), [Txn.read MPU9250_ADDRESS GYRO_XOUT_H 6]⟩) := by
  rw [setParameters_ok_state bus d m a mg g h]
  constructor
  · rintro (rfl | rfl) <;> simp [readGyroData, gyroDisabled]
  · rintro (rfl | rfl) bs hbs <;> simp [readGyroData, gyroDisabled, hbs]

/-- Witness for claim C1: after configuring HP_ALL on an all-success bus, a
gyroscope read on a bus serving concrete bytes returns status 0 with the
decoded values and a single 6-byte read transaction. -/
theorem claimC1_witness :
    readGyroData busSample (setParameters (busConst 1) drvVLP MEMS_MODE.HP_ALL 0 16 0).2.1 =
      ⟨0, some (decode6BE [1, 2, 3, 4, 255, 254]),
       [Txn.read MPU9250_ADDRESS GYRO_XOUT_H 6]⟩ :=
  (claimC1_readGyro_mode_gating (busConst 1) busSample drvVLP MEMS_MODE.HP_ALL 0 16 0
      (by decide)).2 (Or.inl rfl) [1, 2, 3, 4, 255, 254] (by decide)

/-- Claim C2: readMagData returns the no-data status (1) and performs no
6-byte data read whenever the data-ready bit (bit 0) of the status register
ST1 is clear; when the ready bit is set it reads six data bytes and then
ST2, returning the measurement-error status (2) if the overflow bit (bit 3)
is set, and the good status (0) with the little-endian decoded triple
otherwise (with the re-arm write succeeding where the mode requires one). -/
theorem claimC2_readMag_status (bus : Bus) (d : Driver) :
    (∀ st1, bus.readFn AK8963_ADDRESS AK8963_ST1 1 = some st1 →
       byte0 st1 % 2 = 0 →
       readMagData bus d = ⟨1, none, [Txn.read AK8963_ADDRESS AK8963_ST1 1]⟩) ∧
    (∀ st1 bs st2, bus.readFn AK8963_ADDRESS AK8963_ST1 1 = some st1 →
       byte0 st1 % 2 = 1 →
       bus.readFn AK8963_ADDRESS AK8963_XOUT_L 6 = some bs →
       bus.readFn AK8963_ADDRESS AK8963_ST2 1 = some st2 →
       (byte0 st2 / 8 % 2 = 1 →
          (readMagData bus d).status = 2 ∧ (readMagData bus d).values = none) ∧
       (byte0 st2 / 8 % 2 = 0 →
          bus.writeFn AK8963_ADDRESS AK8963_CNTL [d.magfs ||| MFS_SINGLE] = true →
          (readMagData bus d).status = 0 ∧
          (readMagData bus d).values = some (decode6LE bs))) := by
  constructor
  · intro st1 h1 h2
    simp [readMagData, h1, h2]
  · intro st1 bs st2 h1 h2 h3 h4
    have h2n : ¬ byte0 st1 % 2 = 0 := by omega
    constructor
    · intro hov
      simp [readMagData, h1, h2n, h3, h4, hov]
    · intro hov hw
      have hovn : ¬ byte0 st2 / 8 % 2 = 1 := by omega
      by_cases hm : d.opmode = MEMS_MODE.LP_ACCMAG
      · simp [readMagData, h1, h2n, h3, h4, hovn, hm, hw]
      · simp [readMagData, h1, h2n, h3, h4, hovn, hm]

/-- Witness for claim C2: on a bus whose ST1 byte is 0 the read reports no
data and only the single status poll appears in the transaction log. -/
theorem claimC2_witness :
    readMagData (busConst 0) drvHP = ⟨1, none, [Txn.read AK8963_ADDRESS AK8963_ST1 1]⟩ :=
  (claimC2_readMag_status (busConst 0) drvHP).1 [0] (by decide) (by decide)

/-- Claim C3: readAccelData and readGyroData decode big-endian, each value
being the int16 reinterpretation of (hi shl 8) or lo with the high byte at
the lower register address; readMagData decodes little-endian, the byte at
the lower register address being the low byte, so the byte order is swapped
relative to the accelerometer and gyroscope decode. -/
theorem claimC3_decode_endianness (bus : Bus) (d : Driver)
    (a0 a1 a2 a3 a4 a5 g0 g1 g2 g3 g4 g5 m0 m1 m2 m3 m4 m5 : Nat)
    (ha : bus.readFn MPU9250_ADDRESS ACCEL_XOUT_H 6 = some [a0, a1, a2, a3, a4, a5])
    (hg : bus.readFn MPU9250_ADDRESS GYRO_XOUT_H 6 = some [g0, g1, g2, g3, g4, g5])
    (hgyro : gyroDisabled d.opmode = false)
    (hst1 : bus.readFn AK8963_ADDRESS AK8963_ST1 1 = some [1])
    (hm : bus.readFn AK8963_ADDRESS AK8963_XOUT_L 6 = some [m0, m1, m2, m3, m4, m5])
    (hst2 : bus.readFn AK8963_ADDRESS AK8963_ST2 1 = some [0]) :
    (readAccelData bus).1 =
      some (toInt16 ((a0 % 256) * 256 + a1 % 256),
            toInt16 ((a2 % 256) * 256 + a3 % 256),
            toInt16 ((a4 % 256) * 256 + a5 % 256)) ∧
    (readGyroData bus d).values =
      some (toInt16 ((g0 % 256) * 256 + g1 % 256),
            toInt16 ((g2 % 256) * 256 + g3 % 256),
            toInt16 ((g4 % 256) * 256 + g5 % 256)) ∧
    (readMagData bus d).values =
      some (toInt16 ((m1 % 256) * 256 + m0 % 256),
            toInt16 ((m3 % 256) * 256 + m2 % 256),
            toInt16 ((m5 % 256) * 256 + m4 % 256)) := by
  refine ⟨?_, ?_, ?_⟩
  · simp [readAccelData, ha, decode6BE, decodeBE]
  · simp [readGyroData, hgyro, hg, decode6BE, decodeBE]
  · by_cases hmode : d.opmode = MEMS_MODE.LP_ACCMAG <;>
      simp [readMagData, hst1, hm, hst2, hmode, byte0, decode6LE, decodeBE]

/-- Witness for claim C3: the three decodes evaluated on a bus serving
concrete distinct bytes for each sensor. -/
theorem claimC3_witness :
    (readAccelData busSample).1 =
      some (toInt16 (0x12 * 256 + 0x34), toInt16 (0x56 * 256 + 0x78),
            toInt16 (0x9A * 256 + 0xBC)) ∧
    (readGyroData busSample drvHP).values =
      some (toInt16 (0x01 * 256 + 0x02), toInt16 (0x03 * 256 + 0x04),
            toInt16 (0xFF * 256 + 0xFE)) ∧
    (readMagData busSample drvHP).values =
      some (toInt16 (0x43 * 256 + 0x21), toInt16 (0x87 * 256 + 0x65),
            toInt16 (0xCB * 256 + 0xA9)) :=
  claimC3_decode_endianness busSample drvHP
    0x12 0x34 0x56 0x78 0x9A 0xBC 0x01 0x02 0x03 0x04 0xFF 0xFE
    0x21 0x43 0x65 0x87 0xA9 0xCB
    (by decide) (by decide) (by decide) (by decide) (by decide) (by decide)

/-- Claim C4: after a readMagData call that completes successfully (ready
bit set, no overflow) while the configured mode is LP_ACCMAG, exactly one
additional write is issued to the magnetometer control register AK8963_CNTL
re-selecting single-shot mode; after a successful readMagData while the
configured mode is HP_ALL or HPP_ALL, no write to that register occurs. -/
theorem claimC4_readMag_rearm (bus : Bus) (d : Driver) (st1 bs st2 : List Nat)
    (h1 : bus.readFn AK8963_ADDRESS AK8963_ST1 1 = some st1)
    (h2 : byte0 st1 % 2 = 1)
    (h3 : bus.readFn AK8963_ADDRESS AK8963_XOUT_L 6 = some bs)
    (h4 : bus.readFn AK8963_ADDRESS AK8963_ST2 1 = some st2)
    (h5 : byte0 st2 / 8 % 2 = 0)
    (h6 : bus.writeFn AK8963_ADDRESS AK8963_CNTL [d.magfs ||| MFS_SINGLE] = true) :
    (readMagData bus d).status = 0 ∧
    (d.opmode = MEMS_MODE.LP_ACCMAG →
       (readMagData bus d).log.filter isMagCntlWrite =
         [Txn.write AK8963_ADDRESS AK8963_CNTL [d.magfs ||| MFS_SINGLE]]) ∧
    ((d.opmode = MEMS_MODE.HP_ALL ∨ d.opmode = MEMS_MODE.HPP_ALL) →
       (readMagData bus d).log.filter isMagCntlWrite = []) := by
  have h2n : ¬ byte0 st1 % 2 = 0 := by omega
  have h5n : ¬ byte0 st2 / 8 % 2 = 1 := by omega
  refine ⟨?_, ?_, ?_⟩
  · by_cases hm : d.opmode = MEMS_MODE.LP_ACCMAG <;>
      simp [readMagData, h1, h2n, h3, h4, h5n, hm, h6]
  · intro hm
    simp [readMagData, h1, h2n, h3, h4, h5n, hm, isMagCntlWrite]
  · rintro (hm | hm) <;>
      simp [readMagData, h1, h2n, h3, h4, h5n, hm, isMagCntlWrite]

/-- Witness for claim C4: a successful magnetometer read in single-shot
mode on a bus with ready data logs exactly one control-register re-arm
write. -/
theorem claimC4_witness :
    (readMagData busSample drvLP).status = 0 ∧
    (readMagData busSample drvLP).log.filter isMagCntlWrite =
      [Txn.write AK8963_ADDRESS AK8963_CNTL [drvLP.magfs ||| MFS_SINGLE]] := by
  have h := claimC4_readMag_rearm busSample drvLP [1] [0x21, 0x43, 0x65, 0x87, 0xA9, 0xCB]
    [0] (by decide) (by decide) (by decide) (by decide) (by decide) (by decide)
  exact ⟨h.1, h.2.1 rfl⟩

/-- Claim C7: for each of the four operating modes, setParameters writes
the full register recipe dictated by the mode table: power-management bits
disabling the gyroscope in VLP_ACC and LP_ACCMAG and enabling it in HP_ALL
and HPP_ALL, the accelerometer full-scale, low-pass-filter and sample-rate
registers consistent with the rate class of the mode, and the magnetometer
control register set to the selected resolution bits plus the sampling
submode implied by the mode (power-down for VLP_ACC, single-shot for
LP_ACCMAG, continuous for HP_ALL and HPP_ALL); on an all-success bus the
issued transactions are exactly the recipe. -/
theorem claimC7_mode_recipe_table (bus : Bus) (d : Driver) (a mg g : Nat)
    (hw : ∀ x r v, bus.writeFn x r v = true) :
    (∀ m, writesTo MPU9250_ADDRESS PWR_MGMT_2 (modeRecipe m a mg g) =
       [if gyroDisabled m then MPU_GYRO_DIS else 0x00]) ∧
    (∀ m, writesTo MPU9250_ADDRESS ACCEL_CONFIG (modeRecipe m a mg g) = [a]) ∧
    (∀ m, writesTo AK8963_ADDRESS AK8963_CNTL (modeRecipe m a mg g) =
       [mg ||| magSubmode m]) ∧
    magSubmode MEMS_MODE.VLP_ACC = MFS_PWRNDN ∧
    magSubmode MEMS_MODE.LP_ACCMAG = MFS_SINGLE ∧
    magSubmode MEMS_MODE.HP_ALL = MFS_CONT1 ∧
    magSubmode MEMS_MODE.HPP_ALL = MFS_CONT2 ∧
    writesTo MPU9250_ADDRESS LP_ACCEL_ODR (modeRecipe MEMS_MODE.VLP_ACC a mg g) =
      [ACCEL_DR_00781] ∧
    writesTo MPU9250_ADDRESS LP_ACCEL_ODR (modeRecipe MEMS_MODE.LP_ACCMAG a mg g) =
      [ACCEL_DR_01563] ∧
    writesTo MPU9250_ADDRESS SMPLRT_DIV (modeRecipe MEMS_MODE.HP_ALL a mg g) = [19] ∧
    writesTo MPU9250_ADDRESS SMPLRT_DIV (modeRecipe MEMS_MODE.HPP_ALL a mg g) = [3] ∧
    (∀ m, gyroDisabled m = false →
       writesTo MPU9250_ADDRESS GYRO_CONFIG (modeRecipe m a mg g) = [g]) ∧
    writesTo MPU9250_ADDRESS ACCEL_CONFIG2 (modeRecipe MEMS_MODE.VLP_ACC a mg g) =
      [ACCEL_BW_21] ∧
    writesTo MPU9250_ADDRESS ACCEL_CONFIG2 (modeRecipe MEMS_MODE.LP_ACCMAG a mg g) =
      [ACCEL_BW_21] ∧
    writesTo MPU9250_ADDRESS ACCEL_CONFIG2 (modeRecipe MEMS_MODE.HP_ALL a mg g) =
      [ACCEL_BW_45] ∧
    writesTo MPU9250_ADDRESS ACCEL_CONFIG2 (modeRecipe MEMS_MODE.HPP_ALL a mg g) =
      [ACCEL_BW_218] ∧
    (∀ m, (setParameters bus d m a mg g).1 = 0 ∧
       (setParameters bus d m a mg g).2.2 =
         (modeRecipe m a mg g).map fun w => Txn.write w.1 w.2.1 [w.2.2]) := by
  refine ⟨?_, ?_, ?_, rfl, rfl, rfl, rfl, ?_, ?_, ?_, ?_, ?_, ?_, ?_, ?_, ?_, ?_⟩
  · intro m
    cases m <;>
      simp [writesTo, modeRecipe, gyroDisabled, MPU9250_ADDRESS, AK8963_ADDRESS,
            PWR_MGMT_1, PWR_MGMT_2, SMPLRT_DIV, CONFIG, GYRO_CONFIG, ACCEL_CONFIG,
            ACCEL_CONFIG2, LP_ACCEL_ODR, AK8963_CNTL]
  · intro m
    cases m <;>
      simp [writesTo, modeRecipe, MPU9250_ADDRESS, AK8963_ADDRESS, PWR_MGMT_1,
            PWR_MGMT_2, SMPLRT_DIV, CONFIG, GYRO_CONFIG, ACCEL_CONFIG,
            ACCEL_CONFIG2, LP_ACCEL_ODR, AK8963_CNTL]
  · intro m
    cases m <;>
      simp [writesTo, modeRecipe, magSubmode, MPU9250_ADDRESS, AK8963_ADDRESS,
            PWR_MGMT_1, PWR_MGMT_2, SMPLRT_DIV, CONFIG, GYRO_CONFIG, ACCEL_CONFIG,
            ACCEL_CONFIG2, LP_ACCEL_ODR, AK8963_CNTL]
  · simp [writesTo, modeRecipe, MPU9250_ADDRESS, AK8963_ADDRESS, PWR_MGMT_1,
          PWR_MGMT_2, ACCEL_CONFIG, ACCEL_CONFIG2, LP_ACCEL_ODR, AK8963_CNTL]
  · simp [writesTo, modeRecipe, MPU9250_ADDRESS, AK8963_ADDRESS, PWR_MGMT_1,
          PWR_MGMT_2, ACCEL_CONFIG, ACCEL_CONFIG2, LP_ACCEL_ODR, AK8963_CNTL]
  · simp [writesTo, modeRecipe, MPU9250_ADDRESS, AK8963_ADDRESS, PWR_MGMT_1,
          PWR_MGMT_2, SMPLRT_DIV, CONFIG, GYRO_CONFIG, ACCEL_CONFIG,
          ACCEL_CONFIG2, AK8963_CNTL]
  · simp [writesTo, modeRecipe, MPU9250_ADDRESS, AK8963_ADDRESS, PWR_MGMT_1,
          PWR_MGMT_2, SMPLRT_DIV, CONFIG, GYRO_CONFIG, ACCEL_CONFIG,
          ACCEL_CONFIG2, AK8963_CNTL]
  · intro m hm
    cases m <;>
      first
        | rfl
        | exact absurd hm (by decide)
  · simp [writesTo, modeRecipe, MPU9250_ADDRESS, AK8963_ADDRESS, PWR_MGMT_1,
          PWR_MGMT_2, ACCEL_CONFIG, ACCEL_CONFIG2, LP_ACCEL_ODR, AK8963_CNTL]
  · simp [writesTo, modeRecipe, MPU9250_ADDRESS, AK8963_ADDRESS, PWR_MGMT_1,
          PWR_MGMT_2, ACCEL_CONFIG, ACCEL_CONFIG2, LP_ACCEL_ODR, AK8963_CNTL]
  · simp [writesTo, modeRecipe, MPU9250_ADDRESS, AK8963_ADDRESS, PWR_MGMT_1,
          PWR_MGMT_2, SMPLRT_DIV, CONFIG, GYRO_CONFIG, ACCEL_CONFIG,
          ACCEL_CONFIG2, AK8963_CNTL]
  · simp [writesTo, modeRecipe, MPU9250_ADDRESS, AK8963_ADDRESS, PWR_MGMT_1,
          PWR_MGMT_2, SMPLRT_DIV, CONFIG, GYRO_CONFIG, ACCEL_CONFIG,
          ACCEL_CONFIG2, AK8963_CNTL]
  · intro m
    have hall : ∀ w ∈ modeRecipe m a mg g, bus.writeFn w.1 w.2.1 [w.2.2] = true :=
      fun w _ => hw w.1 w.2.1 [w.2.2]
    have hlog := runWrites_log bus (modeRecipe m a mg g) hall
    exact ⟨by simp [setParameters, hlog], by simp [setParameters, hlog]⟩

/-- Witness for claim C7: evaluated at concrete scale selections on an
all-success bus, the magnetometer control write of the single-shot mode is
the resolution bits plus the single-shot submode. -/
theorem claimC7_witness :
    writesTo AK8963_ADDRESS AK8963_CNTL (modeRecipe MEMS_MODE.LP_ACCMAG 0 16 8) =
      [16 ||| magSubmode MEMS_MODE.LP_ACCMAG] :=
  (claimC7_mode_recipe_table (busConst 1) drvHP 0 16 8
    (fun _ _ _ => rfl)).2.2.1 MEMS_MODE.LP_ACCMAG

/-- Claim C8: initialization performs, in order, a reset write to the
power-management register, clock-source selection with sleep cleared, the
bypass-enable write that makes the magnetometer sub-address reachable, and
device-identity validation; it returns 0 only if every step succeeds, the
first failed write short-circuits the rest, and an identity mismatch makes
the whole sequence fail with no further configuration issued. -/
theorem claimC8_init_sequence (bus : Bus) (d : Driver) :
    ((init bus d).1 = 0 ↔
       bus.writeFn MPU9250_ADDRESS PWR_MGMT_1 [MPU_H_RESET] = true ∧
       bus.writeFn MPU9250_ADDRESS PWR_MGMT_1 [CLK_AUTO] = true ∧
       bus.writeFn MPU9250_ADDRESS INT_PIN_CFG [MPU_BYPASS_EN] = true ∧
       (testWhoAmI bus d).1 = true) ∧
    (init bus d).2 =
      (if bus.writeFn MPU9250_ADDRESS PWR_MGMT_1 [MPU_H_RESET] = false then
        [Txn.write MPU9250_ADDRESS PWR_MGMT_1 [MPU_H_RESET]]
      else if bus.writeFn MPU9250_ADDRESS PWR_MGMT_1 [CLK_AUTO] = false then
        [Txn.write MPU9250_ADDRESS PWR_MGMT_1 [MPU_H_RESET],
         Txn.write MPU9250_ADDRESS PWR_MGMT_1 [CLK_AUTO]]
      else if bus.writeFn MPU9250_ADDRESS INT_PIN_CFG [MPU_BYPASS_EN] = false then
        [Txn.write MPU9250_ADDRESS PWR_MGMT_1 [MPU_H_RESET],
         Txn.write MPU9250_ADDRESS PWR_MGMT_1 [CLK_AUTO],
         Txn.write MPU9250_ADDRESS INT_PIN_CFG [MPU_BYPASS_EN]]
      else
        [Txn.write MPU9250_ADDRESS PWR_MGMT_1 [MPU_H_RESET],
         Txn.write MPU9250_ADDRESS PWR_MGMT_1 [CLK_AUTO],
         Txn.write MPU9250_ADDRESS INT_PIN_CFG [MPU_BYPASS_EN],
         Txn.read MPU9250_ADDRESS WHO_AM_I_MPU9250 1]) := by
  have hwho : (testWhoAmI bus d).2.2 = [Txn.read MPU9250_ADDRESS WHO_AM_I_MPU9250 1] := by
    unfold testWhoAmI
    cases bus.readFn MPU9250_ADDRESS WHO_AM_I_MPU9250 1 <;> simp
  cases hw1 : bus.writeFn MPU9250_ADDRESS PWR_MGMT_1 [MPU_H_RESET] <;>
    cases hw2 : bus.writeFn MPU9250_ADDRESS PWR_MGMT_1 [CLK_AUTO] <;>
      cases hw3 : bus.writeFn MPU9250_ADDRESS INT_PIN_CFG [MPU_BYPASS_EN] <;>
        cases hb : (testWhoAmI bus d).1 <;>
          simp [init, hw1, hw2, hw3, hb, hwho]

/-- Witness for claim C8: on a bus that acknowledges every write and whose
identity register reads back 0x71, initialization reports success. -/
theorem claimC8_witness : (init (busConst 0x71) drvHP).1 = 0 :=
  ((claimC8_init_sequence (busConst 0x71) drvHP).1).mpr ⟨rfl, rfl, rfl, by decide⟩

/-- Claim C9 counterexample: the claim that the subsystem-disabled
condition uses a status value distinct from the one used for transport
failures is false: a readGyroData under a disabled mode and a readGyroData
hitting a transport failure under an enabled mode both return status 1, as
the header of MPU9250.h line 368 documents (0 = good, 1 = disabled or
error). -/
theorem claimC9_counterexample :
    (readGyroData busReadFail drvVLP).status = 1 ∧
    (readGyroData busReadFail drvHP).status = 1 := by decide

/-- Claim C9 (amended): readGyroData reports the subsystem-disabled
condition via status 1, which is the same value used for a transport
failure of the 6-byte read; the status space is only 0 and 1, so callers
can distinguish disabled-or-error from good but not disabled from a bus
error by the status alone; only the absence of bus transactions separates
the two. -/
theorem claimC9_status_conflated (bus : Bus) (d : Driver) :
    (gyroDisabled d.opmode = true →
       (readGyroData bus d).status = 1 ∧ (readGyroData bus d).log = []) ∧
    (gyroDisabled d.opmode = false →
       bus.readFn MPU9250_ADDRESS GYRO_XOUT_H 6 = none →
       (readGyroData bus d).status = 1 ∧ (readGyroData bus d).log ≠ []) ∧
    ((readGyroData bus d).status = 0 ∨ (readGyroData bus d).status = 1) := by
  refine ⟨?_, ?_, ?_⟩
  · intro h
    simp [readGyroData, h]
  · intro h hr
    simp [readGyroData, h, hr]
  · by_cases h : gyroDisabled d.opmode
    · simp [readGyroData, h]
    · cases hr : bus.readFn MPU9250_ADDRESS GYRO_XOUT_H 6 <;>
        simp [readGyroData, h, hr]

/-- Witness for the amended claim C9: in a disabled mode the status is 1
and no transaction is issued. -/
theorem claimC9_witness :
    (readGyroData busReadFail drvLP).status = 1 ∧
    (readGyroData busReadFail drvLP).log = [] :=
  (claimC9_status_conflated busReadFail drvLP).1 rfl

/-- Claim C10: readMagData applies no mode gating: for every configured
mode, including VLP_ACC where the magnetometer is powered down, the call
polls the magnetometer status register ST1 as its first bus transaction,
its status space is only 0 (good), 1 (no data) and 2 (measurement error)
with no disabled value, and a clear ready bit, which is what a powered-down
magnetometer reports, yields status 1 (no data). -/
theorem claimC10_readMag_no_gating (bus : Bus) (d : Driver) :
    (readMagData bus d).log.head? = some (Txn.read AK8963_ADDRESS AK8963_ST1 1) ∧
    ((readMagData bus d).status = 0 ∨ (readMagData bus d).status = 1 ∨
       (readMagData bus d).status = 2) ∧
    (∀ st1, bus.readFn AK8963_ADDRESS AK8963_ST1 1 = some st1 →
       byte0 st1 % 2 = 0 → (readMagData bus d).status = 1) := by
  unfold readMagData
  cases h1 : bus.readFn AK8963_ADDRESS AK8963_ST1 1 with
  | none => simp
  | some st1 =>
    by_cases h2 : byte0 st1 % 2 = 0
    · simp [h2]
    · cases h3 : bus.readFn AK8963_ADDRESS AK8963_XOUT_L 6 with
      | none => simp [h2]; omega
      | some bs =>
        cases h4 : bus.readFn AK8963_ADDRESS AK8963_ST2 1 with
        | none => simp [h2]; omega
        | some st2 =>
          by_cases h5 : byte0 st2 / 8 % 2 = 1
          · simp [h2, h5]; omega
          · by_cases h6 : d.opmode = MEMS_MODE.LP_ACCMAG
            · cases h7 : bus.writeFn AK8963_ADDRESS AK8963_CNTL [d.magfs ||| MFS_SINGLE] <;>
                (simp [h2, h5, h6, h7]; omega)
            · simp [h2, h5, h6]; omega

/-- Witness for claim C10: under the very low power accelerometer-only
mode, where the magnetometer is powered down and its ready bit stays
clear, readMagData still polls ST1 and reports status 1. -/
theorem claimC10_witness :
    (readMagData (busConst 0) drvVLP).log.head? =
      some (Txn.read AK8963_ADDRESS AK8963_ST1 1) ∧
    (readMagData (busConst 0) drvVLP).status = 1 := by
  have h := claimC10_readMag_no_gating (busConst 0) drvVLP
  exact ⟨h.1, h.2.2 [0] (by decide) (by decide)⟩

end MPU9250
